import Mathlib

/-!
Verification of the check-dispatch and fallback-resolution core of
`global_monitor.py` (OpsNow health-check runner).

The browser session is modelled as an abstract read-only `Page` environment:
`findVisible` stands for `WebDriverWait(driver, 10).until(visibility_of_element_located(...))`
(`none` = `TimeoutException`), an element's text over successive one-second
polls is a function `Nat → Option String` (`none` = an exception while reading
`elem.text`), and the page-wide JavaScript scans (`js_find_mtd_cost`,
`js_find_more_available_total`, `js_find_ceikpi_grade_full`, `js_scan_labels`,
`js_find_ec2_near_aws`) are modelled by their returned data.  All Python string
operations (`strip`, `lower`, `capitalize`, `isdigit`, `in`, `or`) are embedded
explicitly below.
-/

namespace GlobalMonitor

/-- Python truthiness-based `a or b` on strings: `b` when `a` is empty. -/
def pyOr (a b : String) : String := if a == "" then b else a

/-- Python `str.strip()`: drop leading and trailing whitespace. -/
def pyStrip (s : String) : String :=
  String.mk (((s.data.dropWhile Char.isWhitespace).reverse.dropWhile Char.isWhitespace).reverse)

/-- Python `str.lower()` (and JavaScript `toLowerCase`), character-wise. -/
def pyLower (s : String) : String := String.mk (s.data.map Char.toLower)

/-- Whether the first list is a prefix of the second. -/
def listIsPrefixOf : List Char → List Char → Bool
  | [], _ => true
  | _ :: _, [] => false
  | a :: as, b :: bs => a == b && listIsPrefixOf as bs

/-- Whether `needle` occurs as a contiguous sublist of `hay`. -/
def listContainsSub (hay needle : List Char) : Bool :=
  match hay with
  | [] => needle.isEmpty
  | _ :: rest => listIsPrefixOf needle hay || listContainsSub rest needle

/-- Fuel-driven core of `str.replace` for a non-empty pattern: replace every
non-overlapping occurrence, left to right. -/
def listReplaceFuel (pat rep : List Char) : Nat → List Char → List Char
  | 0, hay => hay
  | _ + 1, [] => []
  | n + 1, c :: rest =>
    if listIsPrefixOf pat (c :: rest) then
      rep ++ listReplaceFuel pat rep n ((c :: rest).drop pat.length)
    else c :: listReplaceFuel pat rep n rest

/-- Python `s.replace(pat, rep)` for the non-empty patterns used by the source. -/
def pyReplace (s pat rep : String) : String :=
  if pat.data.isEmpty then s
  else String.mk (listReplaceFuel pat.data rep.data s.data.length s.data)

/-- Python `str.capitalize()`: first character upper-cased, the rest lower-cased. -/
def pyCapitalize (s : String) : String :=
  match s.data with
  | [] => ""
  | c :: cs => String.mk (c.toUpper :: cs.map Char.toLower)

/-- Python `str.isdigit()` (restricted to the decimal digits that occur here):
true iff the string is non-empty and every character is a digit. -/
def pyIsDigit (s : String) : Bool := s != "" && s.data.all Char.isDigit

/-- Python `pat in s` substring test (and the JavaScript `String.includes`). -/
def strContains (s pat : String) : Bool := listContainsSub s.data pat.data

/-- `os.path.basename`: the part of a path after the last slash. -/
def basename (p : String) : String :=
  String.mk ((p.data.reverse.takeWhile (fun c => c != '/')).reverse)

/-- Lookup in a Python dict modelled as an association list: `m.get(k)`. -/
def dictFind (m : List (String × String)) (k : String) : Option String :=
  (m.find? (fun p => p.1 == k)).map Prod.snd

/-- Python `m.get(k, d)`. -/
def dictGet (m : List (String × String)) (k : String) (d : String) : String :=
  (dictFind m k).getD d

/-- Python dict assignment `m[k] = v`: replace the value in place when the key
exists, append the pair otherwise. -/
def dictSet : List (String × String) → String → String → List (String × String)
  | [], k, v => [(k, v)]
  | p :: rest, k, v => if p.1 == k then (k, v) :: rest else p :: dictSet rest k v

/-- Lookup of a per-URL metadata dict: `cfg.get("metadata_by_url", {}).get(url, {})`. -/
def dictFindList (m : List (String × List (String × String))) (k : String) :
    List (String × String) :=
  ((m.find? (fun p => p.1 == k)).map Prod.snd).getD []

/-- `SERVER_LABEL_KEYS` from the source: default label keys for the JS scan fallback. -/
def SERVER_LABEL_KEYS : List String :=
  ["total server", "total servers", "server", "servers", "서버", "총 서버"]

/-- A matched DOM element: its Selenium `.text` at each one-second poll step
(`none` models an exception raised while reading the text). -/
structure Elem where
  textAt : Nat → Option String

/-- A Selenium locator strategy, `By.XPATH` or `By.CSS_SELECTOR`. -/
inductive By where
  | xpath : String → By
  | css : String → By

/-- One element of the `span,div,button,a,li,p` query run by
`js_find_ec2_near_aws`: its `textContent`, its visibility, and the
`textContent` of its successive ancestors (nearest first). -/
structure EcElem where
  text : String
  visible : Bool
  ancestors : List String

/-- The abstract, read-only page/browser environment a check runs against. -/
structure Page where
  findVisible : By → Option Elem
  scanLabels : List (String × String)
  ecCandidates : List EcElem
  jsMtdCost : String
  jsMoreAvailable : String
  jsCeiGrade : String
  snap : String → String

/-- One entry of a check's `locators` list: `{kind, value}`, either key may be
missing in the YAML. -/
structure Locator where
  kind : Option String
  value : Option String

/-- A check's optional `js_fallback` dict: `{strategy, label_keys}`. -/
structure Fallback where
  strategy : Option String
  label_keys : Option (List String)

/-- A CheckSpec as consumed by `run_one_check`. -/
structure Check where
  name : String
  url : String
  type : Option String
  locators : List Locator
  js_fallback : Option Fallback
  metadata : Option (List (String × String))

/-- The loaded configuration: run-wide defaults and per-URL metadata. -/
structure Cfg where
  defaults : List (String × String)
  metadata_by_url : List (String × List (String × String))

/-- One row of the report, as built by `make_result`. -/
structure ResultRecord where
  Site : String
  Company : String
  Service : String
  Menu : String
  URL : String
  Check : String
  Locator : String
  Value : String
  Status : String
  Screenshot : String

/-- The acceptance test inside `wait_non_empty_text`'s loop: text is non-empty,
not `"0"`, and not `"0ea"` case-insensitively. -/
def goodText (t : String) : Bool := t != "" && t != "0" && pyLower t != "0ea"

/-- Loop body of `wait_non_empty_text`: remaining iterations, current poll
index, and the last text read. -/
def wnetAux (getText : Nat → Option String) : Nat → Nat → String → String
  | 0, _, txt => txt
  | n + 1, i, _ =>
    let txt := pyStrip ((getText i).getD "")
    if goodText txt then txt else wnetAux getText n (i + 1) txt

/-- `wait_non_empty_text(get_text, seconds)`: poll up to `seconds` times,
returning early on an acceptable text, else the last text read. -/
def wait_non_empty_text (getText : Nat → Option String) (seconds : Nat) : String :=
  wnetAux getText seconds 0 ""

/-- First loop of `pick_value_by_labels`: first row with a non-empty value
whose label contains (case-insensitively) one of the keys. -/
def pvblFirst (rows : List (String × String)) (keys : List String) : Option String :=
  match rows with
  | [] => none
  | (l, v) :: rest =>
    let lab := pyLower (pyStrip l)
    let val := pyStrip v
    if val == "" then pvblFirst rest keys
    else if keys.any (fun key => strContains lab (pyLower key)) then some val
    else pvblFirst rest keys

/-- Second loop of `pick_value_by_labels`: first row with an empty label and a
non-empty, comma-stripped-numeric value. -/
def pvblSecond (rows : List (String × String)) : Option String :=
  match rows with
  | [] => none
  | (l, v) :: rest =>
    let lab := pyLower (pyStrip l)
    let val := pyStrip v
    if lab == "" && val != "" && pyIsDigit (pyReplace val "," "") then some val
    else pvblSecond rest

/-- `pick_value_by_labels(rows, label_keys)` from the source. -/
def pick_value_by_labels (rows : List (String × String)) (keys : List String) : String :=
  match pvblFirst rows keys with
  | some v => v
  | none =>
    match pvblSecond rows with
    | some v => v
    | none => ""

/-- The filter of `js_find_ec2_near_aws`: visible element whose trimmed,
lower-cased `textContent` is exactly `"ec2"`. -/
def isEc2Candidate (el : EcElem) : Bool := pyLower (pyStrip el.text) == "ec2" && el.visible

/-- `js_find_ec2_near_aws()`: for each visible exact `"ec2"` element, walk the
element itself and up to five ancestors looking for a `textContent` containing
`"aws"`; return `"FOUND"` on a hit.  Otherwise, return `"FOUND"` whenever any
visible exact `"ec2"` element exists at all, and `""` only when none does. -/
def js_find_ec2_near_aws (page : Page) : String :=
  let ec2s := page.ecCandidates.filter isEc2Candidate
  match ec2s.find? (fun el =>
      ((el.text :: el.ancestors).take 6).any (fun t => strContains (pyLower t) "aws")) with
  | some _ => "FOUND"
  | none =>
    match page.ecCandidates.find? isEc2Candidate with
    | some _ => "FOUND"
    | none => ""

/-- `make_result(meta, url, check_name, locator_used, value, status, screenshot_path)`:
build the ten-field report row; on FAIL with no screenshot path, capture one. -/
def make_result (page : Page) (meta : List (String × String)) (url check_name : String)
    (locator_used value status : String) (screenshot_path : Option String) : ResultRecord :=
  let sp := if status == "FAIL" && (screenshot_path.getD "") == "" then
      some (page.snap ((pyReplace check_name " " "_") ++ "_Fail"))
    else screenshot_path
  let screenshot_name := match sp with
    | some p => basename p
    | none => ""
  { Site := dictGet meta "Site" "", Company := dictGet meta "Company" "",
    Service := dictGet meta "Service" "", Menu := dictGet meta "Menu" "",
    URL := url, Check := check_name, Locator := locator_used, Value := value,
    Status := status, Screenshot := screenshot_name }

/-- One `for k, v in overlay.items(): meta[k.capitalize()] = v` loop of
`run_one_check`. -/
def metaOverlay (m overlay : List (String × String)) : List (String × String) :=
  overlay.foldl (fun acc kv => dictSet acc (pyCapitalize kv.1) kv.2) m

/-- Metadata precedence in `run_one_check`: start from run-wide defaults and
the four required keys, then overlay per-URL metadata, then per-check
metadata, capitalizing every overlay key. -/
def buildMeta (defaults urlMeta perMeta : List (String × String)) :
    List (String × String) :=
  let m0 : List (String × String) :=
    [("Site", dictGet defaults "site" ""), ("Company", dictGet defaults "company" ""),
     ("Service", ""), ("Menu", "")]
  metaOverlay (metaOverlay m0 urlMeta) perMeta

/-- The effective pattern of a locator: `(loc.get("value") or "").strip()`. -/
def locEffValue (loc : Locator) : String := pyStrip (loc.value.getD "")

/-- The effective kind of a locator: `(loc.get("kind") or "xpath").lower()`. -/
def locKind (loc : Locator) : String :=
  pyLower (pyOr (loc.kind.getD "") "xpath")

/-- The Selenium strategy a locator is tried under: XPath exactly when the
effective kind is `"xpath"`, CSS selector otherwise. -/
def locBy (loc : Locator) : By :=
  if locKind loc == "xpath" then By.xpath (locEffValue loc) else By.css (locEffValue loc)

/-- The descriptor recorded for a matched locator: `f"{kind}:{value}"`. -/
def locDescr (loc : Locator) : String := locKind loc ++ ":" ++ locEffValue loc

/-- The primary-locator loop of `run_one_check`: skip locators with an empty
effective value, try the rest in order, return the first visible match with
its descriptor; a timeout advances to the next locator. -/
def resolveLocators (page : Page) : List Locator → Option (Elem × String)
  | [] => none
  | loc :: rest =>
    if locEffValue loc == "" then resolveLocators page rest
    else
      match page.findVisible (locBy loc) with
      | some e => some (e, locDescr loc)
      | none => resolveLocators page rest

/-- The effective check type: `(check.get("type") or "value_required").lower()`. -/
def ctypeOf (check : Check) : String :=
  pyLower (pyOr (check.type.getD "") "value_required")

/-- The label keys used by the scan-labels fallback:
`js_fb.get("label_keys") or SERVER_LABEL_KEYS`. -/
def fbLabelKeys (js_fb : Fallback) : List String :=
  match js_fb.label_keys with
  | some ks => if ks.isEmpty then SERVER_LABEL_KEYS else ks
  | none => SERVER_LABEL_KEYS

/-- The dispatch core of `run_one_check` (from the primary-locator loop to the
returned row).  `Except.error ()` models the one uncaught exception site in the
dispatcher: reading `elem.text` in the `more_available_total` branch. -/
def run_one_check (check : Check) (cfg : Cfg) (page : Page) :
    Except Unit ResultRecord :=
  let url := check.url
  let name := check.name
  let ctype := ctypeOf check
  let js_fb := check.js_fallback.getD { strategy := none, label_keys := none }
  let meta := buildMeta cfg.defaults (dictFindList cfg.metadata_by_url url)
      (check.metadata.getD [])
  let resolved := resolveLocators page check.locators
  let matched := resolved.map Prod.snd
  if ctype == "mtd_cost" then
    let value0 := match resolved with
      | some (e, _) => wait_non_empty_text e.textAt 30
      | none => ""
    let value := if value0 == "" || !(strContains value0 "$") then
        pyStrip page.jsMtdCost
      else value0
    let status := if value == "" then "FAIL" else "PASS"
    Except.ok (make_result page meta url name (matched.getD "[JS MTD cost]") value status none)
  else if ctype == "more_available_total" then
    match resolved with
    | some (e, m) =>
      match e.textAt 0 with
      | none => Except.error ()
      | some t =>
        let value := pyOr (pyStrip t) (pyStrip page.jsMoreAvailable)
        let status := if value == "" then "FAIL" else "PASS"
        Except.ok (make_result page meta url name m value status none)
    | none =>
      let value := pyStrip page.jsMoreAvailable
      let status := if value == "" then "FAIL" else "PASS"
      Except.ok (make_result page meta url name "[JS MoreAvailable Total]" value status none)
  else if ctype == "cei_grade" then
    let value := match resolved with
      | some (e, _) => pyOr (wait_non_empty_text e.textAt 15) (pyStrip page.jsCeiGrade)
      | none => pyStrip page.jsCeiGrade
    let status := if value == "" then "FAIL" else "PASS"
    Except.ok (make_result page meta url name (matched.getD "[JS CEI grade]") value status none)
  else if ctype == "element_exists" then
    let found := resolved.isSome
    let status0 := if found then "PASS" else "FAIL"
    let value0 := if found then "FOUND" else ""
    if status0 == "FAIL" && js_fb.strategy == some "ec2_near_aws" then
      if js_find_ec2_near_aws page != "" then
        Except.ok (make_result page meta url name "[JS EC2-near-AWS]" "FOUND" "PASS" none)
      else
        Except.ok (make_result page meta url name (matched.getD "n/a") value0 status0 none)
    else
      Except.ok (make_result page meta url name (matched.getD "n/a") value0 status0 none)
  else
    let value0 := match resolved with
      | some (e, _) => wait_non_empty_text e.textAt 15
      | none => ""
    let value := if value0 == "" && js_fb.strategy == some "scan_labels" then
        pick_value_by_labels page.scanLabels (fbLabelKeys js_fb)
      else value0
    let status := if value == "" then "FAIL" else "PASS"
    Except.ok (make_result page meta url name (matched.getD "[JS scan fallback]") value status none)

/-- The minimal FAIL row appended by `__main__` when processing a check raises:
empty metadata, empty locator and value, status FAIL. -/
def crashRecord (page : Page) (c : Check) : ResultRecord :=
  make_result page [("Site", ""), ("Company", ""), ("Service", ""), ("Menu", "")]
    c.url c.name "" "" "FAIL" none

/-- The per-check loop of `__main__`: append the check's row on success, the
crash row when processing raised, and keep going. -/
def mainLoop (process : Check → Except Unit ResultRecord) (page : Page) :
    List Check → List ResultRecord → List ResultRecord
  | [], results => results
  | c :: cs, results =>
    let r := match process c with
      | Except.ok r => r
      | Except.error _ => crashRecord page c
    mainLoop process page cs (results ++ [r])

/-- The whole batch: run every configured check, accumulating one row each. -/
def runAll (process : Check → Except Unit ResultRecord) (page : Page)
    (checks : List Check) : List ResultRecord :=
  mainLoop process page checks []

/-! ### Concrete fixtures used by witnesses and counterexamples -/

/-- A page on which every locator times out and every JS scan is empty. -/
def emptyPage : Page :=
  { findVisible := fun _ => none, scanLabels := [], ecCandidates := [],
    jsMtdCost := "", jsMoreAvailable := "", jsCeiGrade := "",
    snap := fun n => "screenshots/" ++ n ++ ".png" }

/-- A minimal check with no locators and no fallback. -/
def checkA : Check :=
  { name := "a", url := "u", type := none, locators := [], js_fallback := none,
    metadata := none }

/-- An empty configuration. -/
def cfgA : Cfg := { defaults := [], metadata_by_url := [] }

/-! ### Helper lemmas -/

theorem make_result_Status (page : Page) (meta : List (String × String))
    (url check_name locator_used value status : String) (sp : Option String) :
    (make_result page meta url check_name locator_used value status sp).Status = status := rfl

theorem make_result_Value (page : Page) (meta : List (String × String))
    (url check_name locator_used value status : String) (sp : Option String) :
    (make_result page meta url check_name locator_used value status sp).Value = value := rfl

theorem make_result_Locator (page : Page) (meta : List (String × String))
    (url check_name locator_used value status : String) (sp : Option String) :
    (make_result page meta url check_name locator_used value status sp).Locator
      = locator_used := rfl

theorem mainLoop_eq_map (process : Check → Except Unit ResultRecord) (page : Page) :
    ∀ (cs : List Check) (acc : List ResultRecord),
      mainLoop process page cs acc =
        acc ++ cs.map (fun c => match process c with
          | Except.ok r => r
          | Except.error _ => crashRecord page c)
  | [], acc => by simp [mainLoop]
  | c :: cs, acc => by
    simp [mainLoop, mainLoop_eq_map process page cs]

/-! ### Claims -/

/-- C1: if processing one check raises any exception, the `__main__` loop still
appends exactly one row for it — a FAIL row with an empty value — and every
other check in the batch still contributes exactly its own row, in order. -/
theorem batch_fault_isolation (process : Check → Except Unit ResultRecord)
    (page : Page) (checks : List Check) (c : Check)
    (h : process c = Except.error ()) :
    runAll process page checks =
      checks.map (fun x => match process x with
        | Except.ok r => r
        | Except.error _ => crashRecord page x) ∧
    (crashRecord page c).Status = "FAIL" ∧ (crashRecord page c).Value = "" := by
  refine ⟨?_, rfl, rfl⟩
  simpa using mainLoop_eq_map process page checks []

/-- Witness for C1 at a batch of two checks, both of which crash. -/
theorem batch_fault_isolation_witness :
    ((fun _ : Check => (Except.error () : Except Unit ResultRecord)) checkA
        = Except.error ()) ∧
    (runAll (fun _ : Check => Except.error ()) emptyPage [checkA, checkA] =
      [checkA, checkA].map (fun x =>
        match (fun _ : Check => (Except.error () : Except Unit ResultRecord)) x with
        | Except.ok r => r
        | Except.error _ => crashRecord emptyPage x) ∧
      (crashRecord emptyPage checkA).Status = "FAIL" ∧
      (crashRecord emptyPage checkA).Value = "") :=
  ⟨rfl, batch_fault_isolation (fun _ => Except.error ()) emptyPage [checkA, checkA] checkA rfl⟩

/-- C9: every report row produced for a completed check — on every pass/fail
path of the dispatcher, and on the crash path of the batch loop — has a Status
that is exactly `"PASS"` or `"FAIL"`; all ten fields are Strings by
construction of `make_result`. -/
theorem result_record_status_total (check : Check) (cfg : Cfg) (page : Page)
    (r : ResultRecord) (h : run_one_check check cfg page = Except.ok r) :
    (r.Status = "PASS" ∨ r.Status = "FAIL") ∧ (crashRecord page check).Status = "FAIL" := by
  refine ⟨?_, rfl⟩
  simp only [run_one_check] at h
  repeat' split at h
  all_goals
    first
      | exact Except.noConfusion h
      | (injection h with h; subst h;
         simp only [make_result_Status]
         first
           | (split <;> simp)
           | simp)

/-- The row `run_one_check` produces for `checkA` against `emptyPage`. -/
def recA : ResultRecord :=
  { Site := "", Company := "", Service := "", Menu := "", URL := "u", Check := "a",
    Locator := "[JS scan fallback]", Value := "", Status := "FAIL",
    Screenshot := "a_Fail.png" }

/-- Witness for C9 on a concrete check whose dispatch completes. -/
theorem result_record_status_total_witness :
    run_one_check checkA cfgA emptyPage = Except.ok recA ∧
    ((recA.Status = "PASS" ∨ recA.Status = "FAIL") ∧
     (crashRecord emptyPage checkA).Status = "FAIL") :=
  ⟨rfl, result_record_status_total checkA cfgA emptyPage recA rfl⟩

/-- A page with a single visible `"EC2"` text node and no `"aws"` text anywhere. -/
def c7Page : Page :=
  { emptyPage with ecCandidates := [{ text := "EC2", visible := true, ancestors := [] }] }

/-- C7 counterexample: on a page whose only candidate is a visible exact
`"EC2"` node with no ancestor (or own) text containing `"aws"`, the extractor
still reports `"FOUND"`, so found is not equivalent to co-occurrence of the
two tokens. -/
theorem ec2_near_aws_cooccurrence_cex :
    js_find_ec2_near_aws c7Page = "FOUND" ∧
    ∀ el ∈ c7Page.ecCandidates,
      (((el.text :: el.ancestors).take 6).any (fun t => strContains (pyLower t) "aws")) = false := by
  exact ⟨rfl, by decide⟩

theorem js_find_ec2_eq (page : Page) :
    js_find_ec2_near_aws page =
      (if page.ecCandidates.any isEc2Candidate then "FOUND" else "") := by
  by_cases hany : page.ecCandidates.any isEc2Candidate = true
  · rw [if_pos hany]
    obtain ⟨el, hel, hcand⟩ := List.any_eq_true.mp hany
    unfold js_find_ec2_near_aws
    cases h1 : (page.ecCandidates.filter isEc2Candidate).find? (fun el =>
        ((el.text :: el.ancestors).take 6).any (fun t => strContains (pyLower t) "aws")) with
    | some x => simp only [h1]
    | none =>
      cases h2 : page.ecCandidates.find? isEc2Candidate with
      | some y => simp only [h1, h2]
      | none =>
        rw [List.find?_eq_none] at h2
        exact absurd hcand (by simpa using h2 el hel)
  · rw [if_neg hany]
    have hno : ∀ x ∈ page.ecCandidates, ¬ isEc2Candidate x = true := by
      intro x hx hcand
      exact hany (List.any_eq_true.mpr ⟨x, hx, hcand⟩)
    unfold js_find_ec2_near_aws
    have h1 : (page.ecCandidates.filter isEc2Candidate).find? (fun el =>
        ((el.text :: el.ancestors).take 6).any (fun t => strContains (pyLower t) "aws")) = none := by
      rw [List.find?_eq_none]
      intro x hx
      exact absurd (List.mem_filter.mp hx).2 (hno x (List.mem_filter.mp hx).1)
    have h2 : page.ecCandidates.find? isEc2Candidate = none := by
      rw [List.find?_eq_none]
      exact hno
    simp only [h1, h2]

/-- C7 amended: the extractor returns only a found/not-found flag (`"FOUND"`
or `""`), and it reports found exactly when some visible text node's trimmed,
lower-cased text is exactly `"ec2"` — the bounded ancestor walk for the
`"aws"` anchor is attempted first, but a visible exact match with no anchor
nearby still reports found. -/
theorem ec2_near_aws_flag_amended (page : Page) :
    (js_find_ec2_near_aws page = "FOUND" ∨ js_find_ec2_near_aws page = "") ∧
    (js_find_ec2_near_aws page = "FOUND" ↔
      ∃ el ∈ page.ecCandidates, isEc2Candidate el = true) := by
  rw [js_find_ec2_eq]
  by_cases hany : page.ecCandidates.any isEc2Candidate = true
  · rw [if_pos hany]
    exact ⟨Or.inl rfl, ⟨fun _ => List.any_eq_true.mp hany, fun _ => rfl⟩⟩
  · rw [if_neg hany]
    refine ⟨Or.inr rfl, ⟨fun h => absurd h (by decide), fun h => ?_⟩⟩
    exact absurd (List.any_eq_true.mpr h) hany

/-- C3: locator resolution is order-preserving — the first locator (among
those not skipped for an empty pattern) with a visible match wins and its
descriptor `"kind:value"` is returned (so with `[A, B]` where `A` has no match
and `B` matches, `B` wins); a per-locator timeout just advances; and
exhausting every locator yields `none` rather than an error. -/
theorem locator_resolution_order :
    (∀ (page : Page) (pre : List Locator) (loc : Locator) (post : List Locator) (e : Elem),
      (∀ l ∈ pre, locEffValue l = "" ∨ page.findVisible (locBy l) = none) →
      locEffValue loc ≠ "" → page.findVisible (locBy loc) = some e →
      resolveLocators page (pre ++ loc :: post) = some (e, locDescr loc)) ∧
    (∀ (page : Page) (locs : List Locator),
      (∀ l ∈ locs, locEffValue l = "" ∨ page.findVisible (locBy l) = none) →
      resolveLocators page locs = none) := by
  constructor
  · intro page pre loc post e hpre hval hfind
    induction pre with
    | nil =>
      simp only [List.nil_append, resolveLocators]
      rw [if_neg (by simpa using hval), hfind]
    | cons l0 rest ih =>
      have hrest : ∀ l ∈ rest, locEffValue l = "" ∨ page.findVisible (locBy l) = none :=
        fun l hl => hpre l (by simp [hl])
      rcases hpre l0 (by simp) with hv | hn
      · simp only [List.cons_append, resolveLocators]
        rw [if_pos (by simpa using hv)]
        exact ih hrest
      · by_cases hv0 : locEffValue l0 = ""
        · simp only [List.cons_append, resolveLocators]
          rw [if_pos (by simpa using hv0)]
          exact ih hrest
        · simp only [List.cons_append, resolveLocators]
          rw [if_neg (by simpa using hv0), hn]
          exact ih hrest
  · intro page locs h
    induction locs with
    | nil => rfl
    | cons l0 rest ih =>
      have hrest : ∀ l ∈ rest, locEffValue l = "" ∨ page.findVisible (locBy l) = none :=
        fun l hl => h l (by simp [hl])
      rcases h l0 (by simp) with hv | hn
      · simp only [resolveLocators]
        rw [if_pos (by simpa using hv)]
        exact ih hrest
      · by_cases hv0 : locEffValue l0 = ""
        · simp only [resolveLocators]
          rw [if_pos (by simpa using hv0)]
          exact ih hrest
        · simp only [resolveLocators]
          rw [if_neg (by simpa using hv0), hn]
          exact ih hrest

/-- An element used as the match of the second locator in the C3 witness. -/
def elemB : Elem := { textAt := fun _ => some "7" }

/-- First locator of the C3 witness: an XPath with no match on `pageB`. -/
def locA : Locator := { kind := some "xpath", value := some "a" }

/-- Second locator of the C3 witness: kind defaults to XPath, matches on `pageB`. -/
def locB : Locator := { kind := none, value := some "b" }

/-- A page where only the XPath `"b"` has a visible match. -/
def pageB : Page :=
  { emptyPage with findVisible := fun b => match b with
      | By.xpath v => if v == "b" then some elemB else none
      | By.css _ => none }

/-- Witness for C3: with locators `[locA, locB]` where `locA` times out and
`locB` matches, resolution returns `locB`'s element and descriptor, and an
all-timeout list resolves to `none`. -/
theorem locator_resolution_order_witness :
    (∀ l ∈ [locA], locEffValue l = "" ∨ pageB.findVisible (locBy l) = none) ∧
    locEffValue locB ≠ "" ∧
    pageB.findVisible (locBy locB) = some elemB ∧
    resolveLocators pageB [locA, locB] = some (elemB, locDescr locB) ∧
    resolveLocators pageB [locA] = none := by
  have h1 : ∀ l ∈ [locA], locEffValue l = "" ∨ pageB.findVisible (locBy l) = none := by
    intro l hl
    rw [List.mem_singleton] at hl
    subst hl
    exact Or.inr rfl
  have h2 : locEffValue locB ≠ "" := by decide
  have h3 : pageB.findVisible (locBy locB) = some elemB := rfl
  exact ⟨h1, h2, h3, locator_resolution_order.1 pageB [locA] locB [] elemB h1 h2 h3,
    locator_resolution_order.2 pageB [locA] h1⟩

/-- C10 counterexample: a locator whose kind field is present but empty — a
kind other than `"xpath"` case-insensitively — is nevertheless treated as
XPath, not as a CSS selector (Python `or` treats the empty kind as missing). -/
theorem locator_kind_empty_cex :
    pyLower "" ≠ "xpath" ∧
    locKind { kind := some "", value := some "v" } = "xpath" ∧
    locBy { kind := some "", value := some "v" } = By.xpath "v" :=
  ⟨by decide, rfl, rfl⟩

/-- C10 amended: a locator whose value is missing or trims to empty is skipped
entirely; a locator whose kind is missing or empty is treated as XPath; a
non-empty kind equal to `"xpath"` case-insensitively is XPath; and any other
non-empty kind — misspellings included — is silently treated as a CSS
selector. -/
theorem locator_normalization :
    (∀ (page : Page) (loc : Locator) (rest : List Locator),
      locEffValue loc = "" →
      resolveLocators page (loc :: rest) = resolveLocators page rest) ∧
    (∀ loc : Locator, loc.value = none → locEffValue loc = "") ∧
    (∀ loc : Locator, loc.kind = none ∨ loc.kind = some "" →
      locKind loc = "xpath" ∧ locBy loc = By.xpath (locEffValue loc)) ∧
    (∀ (loc : Locator) (k : String), loc.kind = some k → k ≠ "" → pyLower k ≠ "xpath" →
      locBy loc = By.css (locEffValue loc)) ∧
    (∀ (loc : Locator) (k : String), loc.kind = some k → pyLower k = "xpath" →
      locBy loc = By.xpath (locEffValue loc)) := by
  have hkind : ∀ (loc : Locator) (k : String), loc.kind = some k → k ≠ "" →
      locKind loc = pyLower k := by
    intro loc k hk hne
    unfold locKind pyOr
    rw [hk]
    simp only [Option.getD_some]
    rw [if_neg (by simpa using hne)]
  refine ⟨?_, ?_, ?_, ?_, ?_⟩
  · intro page loc rest h
    simp only [resolveLocators]
    rw [if_pos (by simpa using h)]
  · intro loc h
    unfold locEffValue
    rw [h]
    rfl
  · intro loc h
    rcases h with h | h <;>
      (constructor
       · unfold locKind
         rw [h]
         rfl
       · unfold locBy locKind
         rw [h]
         rfl)
  · intro loc k hk hne hnx
    unfold locBy
    rw [hkind loc k hk hne, if_neg (by simpa using hnx)]
  · intro loc k hk hx
    have hne : k ≠ "" := by
      intro h
      subst h
      exact absurd hx (by decide)
    unfold locBy
    rw [hkind loc k hk hne, if_pos (by simpa using hx)]

/-- Witness for C10 on concrete locators: an all-whitespace value is skipped,
a missing kind defaults to XPath, a misspelled kind `"csss"` goes to CSS, and
an upper-case `"XPath"` goes to XPath. -/
theorem locator_normalization_witness :
    (locEffValue { kind := none, value := some " " : Locator } = "" ∧
     resolveLocators emptyPage [{ kind := none, value := some " " }] =
       resolveLocators emptyPage []) ∧
    locKind { kind := none, value := some "v" : Locator } = "xpath" ∧
    (pyLower "csss" ≠ "xpath" ∧
     locBy { kind := some "csss", value := some "v" } =
       By.css (locEffValue { kind := some "csss", value := some "v" })) ∧
    (pyLower "XPath" = "xpath" ∧
     locBy { kind := some "XPath", value := some "v" } =
       By.xpath (locEffValue { kind := some "XPath", value := some "v" })) := by
  have hE : locEffValue { kind := none, value := some " " : Locator } = "" := by decide
  refine ⟨⟨hE, locator_normalization.1 emptyPage _ [] hE⟩, ?_, ?_, ?_⟩
  · exact (locator_normalization.2.2.1 _ (Or.inl rfl)).1
  · exact ⟨by decide, locator_normalization.2.2.2.1 _ "csss" rfl (by decide) (by decide)⟩
  · exact ⟨by decide, locator_normalization.2.2.2.2 _ "XPath" rfl (by decide)⟩

/-- The row test of the first loop of `pick_value_by_labels`: the row's
stripped, lower-cased label contains one of the lower-cased keys. -/
def labelRowMatches (keys : List String) (r : String × String) : Bool :=
  keys.any (fun key => strContains (pyLower (pyStrip r.1)) (pyLower key))

/-- The row test of the second loop of `pick_value_by_labels`: empty label and
a non-empty value that is purely numeric once commas are removed. -/
def labelRowNumericUnlabeled (r : String × String) : Bool :=
  pyLower (pyStrip r.1) == "" && pyStrip r.2 != "" &&
    pyIsDigit (pyReplace (pyStrip r.2) "," "")

theorem pvblFirst_eq (rows : List (String × String)) (keys : List String)
    (hv : ∀ r ∈ rows, pyStrip r.2 ≠ "") :
    pvblFirst rows keys =
      (rows.find? (labelRowMatches keys)).map (fun r => pyStrip r.2) := by
  induction rows with
  | nil => rfl
  | cons r rest ih =>
    obtain ⟨l, v⟩ := r
    have hvr : pyStrip v ≠ "" := hv (l, v) (by simp)
    have hrest : ∀ r ∈ rest, pyStrip r.2 ≠ "" := fun r hr => hv r (by simp [hr])
    simp only [pvblFirst]
    rw [if_neg (by simpa using hvr)]
    by_cases hm : labelRowMatches keys (l, v) = true
    · rw [if_pos (by simpa [labelRowMatches] using hm), List.find?_cons_of_pos _ hm]
      rfl
    · rw [if_neg (by simpa [labelRowMatches] using hm), List.find?_cons_of_neg _ hm]
      exact ih hrest

theorem pvblSecond_eq (rows : List (String × String)) :
    pvblSecond rows =
      (rows.find? labelRowNumericUnlabeled).map (fun r => pyStrip r.2) := by
  induction rows with
  | nil => rfl
  | cons r rest ih =>
    obtain ⟨l, v⟩ := r
    simp only [pvblSecond]
    by_cases hm : labelRowNumericUnlabeled (l, v) = true
    · rw [if_pos (by simpa [labelRowNumericUnlabeled] using hm),
        List.find?_cons_of_pos _ hm]
      rfl
    · rw [if_neg (by simpa [labelRowNumericUnlabeled] using hm),
        List.find?_cons_of_neg _ hm]
      exact ih

/-- C6: over the scanned label/value rows (whose values are non-empty by
construction of the page scan), `pick_value_by_labels` returns the stripped
value of the first row whose label contains one of the keys
case-insensitively; failing that, the stripped value of the first row with an
empty label and a purely numeric value; failing both, the empty string. -/
theorem pick_value_by_labels_spec (rows : List (String × String)) (keys : List String)
    (hv : ∀ r ∈ rows, pyStrip r.2 ≠ "") :
    (∀ r, rows.find? (labelRowMatches keys) = some r →
        pick_value_by_labels rows keys = pyStrip r.2) ∧
    (rows.find? (labelRowMatches keys) = none →
      ∀ r, rows.find? labelRowNumericUnlabeled = some r →
        pick_value_by_labels rows keys = pyStrip r.2) ∧
    (rows.find? (labelRowMatches keys) = none →
      rows.find? labelRowNumericUnlabeled = none →
      pick_value_by_labels rows keys = "") := by
  refine ⟨?_, ?_, ?_⟩
  · intro r h
    simp [pick_value_by_labels, pvblFirst_eq rows keys hv, h]
  · intro h1 r h2
    simp [pick_value_by_labels, pvblFirst_eq rows keys hv, h1, pvblSecond_eq, h2]
  · intro h1 h2
    simp [pick_value_by_labels, pvblFirst_eq rows keys hv, h1, pvblSecond_eq, h2]

/-- The scanned rows used by the C6 witness. -/
def c6Rows : List (String × String) := [("Region", "eu-1"), ("Total Servers", "42")]

/-- Witness for C6: the row labelled "Total Servers" wins for key "server". -/
theorem pick_value_by_labels_spec_witness :
    (∀ r ∈ c6Rows, pyStrip r.2 ≠ "") ∧
    c6Rows.find? (labelRowMatches ["server"]) = some ("Total Servers", "42") ∧
    pick_value_by_labels c6Rows ["server"] = pyStrip ("Total Servers", "42").2 := by
  have hv : ∀ r ∈ c6Rows, pyStrip r.2 ≠ "" := by decide
  have hf : c6Rows.find? (labelRowMatches ["server"]) = some ("Total Servers", "42") := by
    decide
  exact ⟨hv, hf, (pick_value_by_labels_spec c6Rows ["server"] hv).1 _ hf⟩

theorem wnetAux_stuck (getText : Nat → Option String) (u : String)
    (hg : ∀ i, pyStrip ((getText i).getD "") = u) (hbad : goodText u = false) :
    ∀ (n i : Nat) (txt : String), wnetAux getText (n + 1) i txt = u := by
  intro n
  induction n with
  | zero =>
    intro i txt
    simp [wnetAux, hg i, hbad]
  | succ k ih =>
    intro i txt
    have step : wnetAux getText (k + 1 + 1) i txt =
        (if goodText (pyStrip ((getText i).getD "")) then pyStrip ((getText i).getD "")
         else wnetAux getText (k + 1) (i + 1) (pyStrip ((getText i).getD ""))) := rfl
    rw [step, hg i, hbad]
    simpa using ih (i + 1) u

/-- The check used by the C2 counterexample: `value_required`, one XPath
locator, no configured fallback. -/
def c2Check : Check :=
  { name := "c", url := "u", type := some "value_required",
    locators := [{ kind := some "xpath", value := some "x" }], js_fallback := none,
    metadata := none }

/-- A page whose XPath `"x"` matches an element that reads `"0"` forever. -/
def c2Page : Page :=
  { emptyPage with findVisible := fun b => match b with
      | By.xpath v => if v == "x" then some { textAt := fun _ => some "0" } else none
      | By.css _ => none }

/-- C2 counterexample: a `value_required` check whose matched element's text is
`"0"` on every poll of the full retry window ends with Status `"PASS"` and
Value `"0"` — the final polled text is kept, no fallback runs, and the claimed
FAIL never happens. -/
theorem value_required_zero_text_cex :
    (run_one_check c2Check cfgA c2Page).map ResultRecord.Status = Except.ok "PASS" ∧
    (run_one_check c2Check cfgA c2Page).map ResultRecord.Value = Except.ok "0" :=
  ⟨rfl, rfl⟩

/-- C2 amended: for a `value_required` check whose matched element's stripped
text reads `"0"` (or `"0ea"` case-insensitively) on every poll for the full
retry window, `wait_non_empty_text` returns that final text, which is
non-empty, so the fallback is not consulted and the check PASSes with that
text as its value. -/
theorem value_required_zero_text_amended (page : Page) (cfg : Cfg) (check : Check)
    (e : Elem) (m : String) (t : String)
    (hc : ctypeOf check = "value_required")
    (hr : resolveLocators page check.locators = some (e, m))
    (ht : ∀ i, pyStrip ((e.textAt i).getD "") = t)
    (hz : t = "0" ∨ pyLower t = "0ea") :
    ∃ r, run_one_check check cfg page = Except.ok r ∧
      r.Status = "PASS" ∧ r.Value = t ∧ r.Locator = m := by
  have hbad : goodText t = false := by
    rcases hz with h | h
    · rw [h]
      decide
    · simp [goodText, h]
  have hne : t ≠ "" := by
    rcases hz with h | h
    · rw [h]
      decide
    · intro h0
      rw [h0] at h
      exact absurd h (by decide)
  have hwait : wait_non_empty_text e.textAt 15 = t :=
    wnetAux_stuck e.textAt t ht hbad 14 0 ""
  have ht0 : (t == "") = false := by simpa using hne
  refine ⟨make_result page
      (buildMeta cfg.defaults (dictFindList cfg.metadata_by_url check.url)
        (check.metadata.getD []))
      check.url check.name m t "PASS" none, ?_, rfl, rfl, rfl⟩
  simp only [run_one_check, hc, hr]
  simp [hwait, ht0]

/-- Witness for C2's amended theorem at the concrete `"0"`-reading page. -/
theorem value_required_zero_text_amended_witness :
    ctypeOf c2Check = "value_required" ∧
    resolveLocators c2Page c2Check.locators =
      some ({ textAt := fun _ => some "0" }, "xpath:x") ∧
    (∀ i, pyStrip ((({ textAt := fun _ => some "0" } : Elem).textAt i).getD "") = "0") ∧
    (("0" : String) = "0" ∨ pyLower "0" = "0ea") ∧
    ∃ r, run_one_check c2Check cfgA c2Page = Except.ok r ∧
      r.Status = "PASS" ∧ r.Value = "0" ∧ r.Locator = "xpath:x" := by
  have h3 : ∀ i, pyStrip ((({ textAt := fun _ => some "0" } : Elem).textAt i).getD "") = "0" :=
    fun _ => rfl
  exact ⟨rfl, rfl, h3, Or.inl rfl,
    value_required_zero_text_amended c2Page cfgA c2Check _ _ _ rfl rfl h3 (Or.inl rfl)⟩

/-- The check of the C5 counterexample: `mtd_cost`, no locators, no fallback. -/
def c5Check : Check :=
  { name := "m", url := "u", type := some "mtd_cost", locators := [], js_fallback := none,
    metadata := none }

/-- A page whose page-wide month-to-date scan finds a dollar amount. -/
def c5Page : Page := { emptyPage with jsMtdCost := "$1,234.00" }

/-- C5 counterexample: an `mtd_cost` check with an empty locator list and no
configured fallback can still PASS with a non-empty value, because the
built-in page-wide JS scan runs unconditionally for that type. -/
theorem empty_locators_no_fallback_cex :
    c5Check.locators = [] ∧ c5Check.js_fallback = none ∧
    (run_one_check c5Check cfgA c5Page).map ResultRecord.Status = Except.ok "PASS" ∧
    (run_one_check c5Check cfgA c5Page).map ResultRecord.Value = Except.ok "$1,234.00" :=
  ⟨rfl, rfl, rfl, rfl⟩

/-- C5 amended: for a CheckSpec with an empty locator list and no configured
fallback, provided the type's built-in page-wide scans also come back empty,
the dispatcher produces a FAIL row with an empty value whose locator field is
`"n/a"` or one of the fallback tags. -/
theorem empty_locators_no_fallback_amended (check : Check) (cfg : Cfg) (page : Page)
    (hloc : check.locators = []) (hfb : check.js_fallback = none)
    (h1 : pyStrip page.jsMtdCost = "") (h2 : pyStrip page.jsMoreAvailable = "")
    (h3 : pyStrip page.jsCeiGrade = "") :
    ∃ r, run_one_check check cfg page = Except.ok r ∧ r.Status = "FAIL" ∧ r.Value = "" ∧
      (r.Locator = "n/a" ∨ r.Locator = "[JS MTD cost]" ∨
       r.Locator = "[JS MoreAvailable Total]" ∨ r.Locator = "[JS CEI grade]" ∨
       r.Locator = "[JS scan fallback]") := by
  have hres : resolveLocators page check.locators = none := by
    rw [hloc]
    rfl
  by_cases hm1 : ctypeOf check = "mtd_cost"
  · refine ⟨make_result page
        (buildMeta cfg.defaults (dictFindList cfg.metadata_by_url check.url)
          (check.metadata.getD []))
        check.url check.name "[JS MTD cost]" "" "FAIL" none,
      ?_, rfl, rfl, Or.inr (Or.inl rfl)⟩
    simp only [run_one_check, hm1, hres]
    simp [h1]
  by_cases hm2 : ctypeOf check = "more_available_total"
  · refine ⟨make_result page
        (buildMeta cfg.defaults (dictFindList cfg.metadata_by_url check.url)
          (check.metadata.getD []))
        check.url check.name "[JS MoreAvailable Total]" "" "FAIL" none,
      ?_, rfl, rfl, Or.inr (Or.inr (Or.inl rfl))⟩
    simp only [run_one_check, beq_iff_eq, hm1, hm2, hres]
    simp [h2]
  by_cases hm3 : ctypeOf check = "cei_grade"
  · refine ⟨make_result page
        (buildMeta cfg.defaults (dictFindList cfg.metadata_by_url check.url)
          (check.metadata.getD []))
        check.url check.name "[JS CEI grade]" "" "FAIL" none,
      ?_, rfl, rfl, Or.inr (Or.inr (Or.inr (Or.inl rfl)))⟩
    simp only [run_one_check, beq_iff_eq, hm1, hm2, hm3, hres]
    simp [h3, pyOr]
  by_cases hm4 : ctypeOf check = "element_exists"
  · refine ⟨make_result page
        (buildMeta cfg.defaults (dictFindList cfg.metadata_by_url check.url)
          (check.metadata.getD []))
        check.url check.name "n/a" "" "FAIL" none,
      ?_, rfl, rfl, Or.inl rfl⟩
    simp only [run_one_check, beq_iff_eq, hm1, hm2, hm3, hm4, hres, hfb]
    simp
  · refine ⟨make_result page
        (buildMeta cfg.defaults (dictFindList cfg.metadata_by_url check.url)
          (check.metadata.getD []))
        check.url check.name "[JS scan fallback]" "" "FAIL" none,
      ?_, rfl, rfl, Or.inr (Or.inr (Or.inr (Or.inr rfl)))⟩
    simp only [run_one_check, beq_iff_eq, hm1, hm2, hm3, hm4, hres, hfb]
    simp

/-- Witness for C5's amended theorem at a concrete empty page. -/
theorem empty_locators_no_fallback_amended_witness :
    checkA.locators = [] ∧ checkA.js_fallback = none ∧
    pyStrip emptyPage.jsMtdCost = "" ∧ pyStrip emptyPage.jsMoreAvailable = "" ∧
    pyStrip emptyPage.jsCeiGrade = "" ∧
    ∃ r, run_one_check checkA cfgA emptyPage = Except.ok r ∧ r.Status = "FAIL" ∧
      r.Value = "" ∧
      (r.Locator = "n/a" ∨ r.Locator = "[JS MTD cost]" ∨
       r.Locator = "[JS MoreAvailable Total]" ∨ r.Locator = "[JS CEI grade]" ∨
       r.Locator = "[JS scan fallback]") :=
  ⟨rfl, rfl, rfl, rfl, rfl,
    empty_locators_no_fallback_amended checkA cfgA emptyPage rfl rfl rfl rfl rfl⟩

/-- C8: for an `mtd_cost` check with a matched locator, the matched element is
polled (30 polls) for non-empty, non-zero text; exactly when the polled text
is empty or lacks a `$` the page-wide currency scan supplies the value, and
otherwise the polled text itself is the value with status PASS; in particular
a matched XPath element constantly reading `"$1,234.00"` yields Value
`"$1,234.00"`, Status PASS, Locator `"xpath:<value>"`. -/
theorem mtd_cost_policy :
    (∀ (page : Page) (cfg : Cfg) (check : Check) (e : Elem) (m : String),
      ctypeOf check = "mtd_cost" →
      resolveLocators page check.locators = some (e, m) →
      (wait_non_empty_text e.textAt 30 ≠ "" →
        strContains (wait_non_empty_text e.textAt 30) "$" = true →
        ∃ r, run_one_check check cfg page = Except.ok r ∧
          r.Value = wait_non_empty_text e.textAt 30 ∧ r.Status = "PASS" ∧ r.Locator = m) ∧
      ((wait_non_empty_text e.textAt 30 = "" ∨
          strContains (wait_non_empty_text e.textAt 30) "$" = false) →
        ∃ r, run_one_check check cfg page = Except.ok r ∧
          r.Value = pyStrip page.jsMtdCost ∧ r.Locator = m ∧
          (pyStrip page.jsMtdCost ≠ "" → r.Status = "PASS") ∧
          (pyStrip page.jsMtdCost = "" → r.Status = "FAIL"))) ∧
    (∀ (page : Page) (cfg : Cfg) (check : Check) (e : Elem) (v : String),
      ctypeOf check = "mtd_cost" →
      check.locators = [{ kind := some "xpath", value := some v }] →
      pyStrip v = v → v ≠ "" →
      page.findVisible (By.xpath v) = some e →
      (∀ i, e.textAt i = some "$1,234.00") →
      ∃ r, run_one_check check cfg page = Except.ok r ∧
        r.Value = "$1,234.00" ∧ r.Status = "PASS" ∧ r.Locator = "xpath:" ++ v) := by
  constructor
  · intro page cfg check e m hc hres
    constructor
    · intro hw1 hw2
      have hb1 : (wait_non_empty_text e.textAt 30 == "") = false := by simpa using hw1
      refine ⟨make_result page
          (buildMeta cfg.defaults (dictFindList cfg.metadata_by_url check.url)
            (check.metadata.getD []))
          check.url check.name m (wait_non_empty_text e.textAt 30) "PASS" none,
        ?_, rfl, rfl, rfl⟩
      simp only [run_one_check, hc, hres]
      simp [hb1, hw2]
    · intro hw
      have hcond : (wait_non_empty_text e.textAt 30 == "" ||
          !strContains (wait_non_empty_text e.textAt 30) "$") = true := by
        rcases hw with h | h
        · simp [h]
        · simp [h]
      by_cases hj : pyStrip page.jsMtdCost = ""
      · refine ⟨make_result page
            (buildMeta cfg.defaults (dictFindList cfg.metadata_by_url check.url)
              (check.metadata.getD []))
            check.url check.name m (pyStrip page.jsMtdCost) "FAIL" none,
          ?_, rfl, rfl, fun h => absurd hj h, fun _ => rfl⟩
        simp only [run_one_check, hc, hres]
        simp [hcond, hj]
      · refine ⟨make_result page
            (buildMeta cfg.defaults (dictFindList cfg.metadata_by_url check.url)
              (check.metadata.getD []))
            check.url check.name m (pyStrip page.jsMtdCost) "PASS" none,
          ?_, rfl, rfl, fun _ => rfl, fun h => absurd h hj⟩
        simp only [run_one_check, hc, hres]
        simp [hcond, hj]
  · intro page cfg check e v hc hlocs hstrip hne hfind ht
    have hres : resolveLocators page check.locators = some (e, "xpath:" ++ v) := by
      rw [hlocs]
      have hval : locEffValue { kind := some "xpath", value := some v } = v := hstrip
      simp only [resolveLocators]
      rw [if_neg (by rw [hval]; simpa using hne)]
      rw [show locBy { kind := some "xpath", value := some v } = By.xpath (pyStrip v) from rfl,
        hstrip, hfind]
      rw [show locDescr { kind := some "xpath", value := some v } = "xpath:" ++ pyStrip v from rfl,
        hstrip]
    have hw : wait_non_empty_text e.textAt 30 = "$1,234.00" := by
      have step : wait_non_empty_text e.textAt 30 =
          (if goodText (pyStrip ((e.textAt 0).getD "")) then pyStrip ((e.textAt 0).getD "")
           else wnetAux e.textAt 29 1 (pyStrip ((e.textAt 0).getD ""))) := rfl
      rw [step, ht 0]
      rw [if_pos (by decide)]
      decide
    refine ⟨make_result page
        (buildMeta cfg.defaults (dictFindList cfg.metadata_by_url check.url)
          (check.metadata.getD []))
        check.url check.name ("xpath:" ++ v) "$1,234.00" "PASS" none,
      ?_, rfl, rfl, rfl⟩
    simp only [run_one_check, hc, hres]
    have hcont : strContains "$1,234.00" "$" = true := by decide
    simp [hw, hcont]

/-- The element of the C8 witness, constantly reading a dollar amount. -/
def elemD : Elem := { textAt := fun _ => some "$1,234.00" }

/-- The page of the C8 witness: XPath `"x"` matches `elemD`. -/
def c8Page : Page :=
  { emptyPage with findVisible := fun b => match b with
      | By.xpath v => if v == "x" then some elemD else none
      | By.css _ => none }

/-- The check of the C8 witness. -/
def c8Check : Check :=
  { name := "mtd", url := "u", type := some "MTD_Cost",
    locators := [{ kind := some "xpath", value := some "x" }], js_fallback := none,
    metadata := none }

/-- Witness for C8 at the concrete `"$1,234.00"` scenario. -/
theorem mtd_cost_policy_witness :
    ctypeOf c8Check = "mtd_cost" ∧
    c8Check.locators = [{ kind := some "xpath", value := some "x" }] ∧
    pyStrip "x" = "x" ∧ ("x" : String) ≠ "" ∧
    c8Page.findVisible (By.xpath "x") = some elemD ∧
    (∀ i, elemD.textAt i = some "$1,234.00") ∧
    ∃ r, run_one_check c8Check cfgA c8Page = Except.ok r ∧
      r.Value = "$1,234.00" ∧ r.Status = "PASS" ∧ r.Locator = "xpath:" ++ "x" :=
  ⟨rfl, rfl, rfl, by decide, rfl, fun _ => rfl,
    mtd_cost_policy.2 c8Page cfgA c8Check elemD "x" rfl rfl rfl (by decide) rfl
      (fun _ => rfl)⟩

theorem dictFind_nil (k : String) : dictFind [] k = none := rfl

theorem dictFind_cons (p : String × String) (rest : List (String × String)) (k : String) :
    dictFind (p :: rest) k = if p.1 = k then some p.2 else dictFind rest k := by
  simp only [dictFind]
  by_cases h : p.1 = k
  · rw [List.find?_cons_of_pos _ (by simpa using h), if_pos h]
    rfl
  · rw [List.find?_cons_of_neg _ (by simpa using h), if_neg h]

theorem dictFind_dictSet (m : List (String × String)) (k v k2 : String) :
    dictFind (dictSet m k v) k2 = if k2 = k then some v else dictFind m k2 := by
  induction m with
  | nil =>
    simp only [dictSet, dictFind_cons, dictFind_nil]
    by_cases h : k2 = k
    · subst h
      simp
    · rw [if_neg (fun hh => h hh.symm), if_neg h]
  | cons p rest ih =>
    simp only [dictSet]
    by_cases hp : p.1 = k
    · rw [if_pos (by simpa using hp)]
      simp only [dictFind_cons]
      by_cases h2 : k2 = k
      · subst h2
        simp
      · rw [if_neg (fun hh => h2 hh.symm), if_neg h2,
          if_neg (by rw [hp]; exact fun hh => h2 hh.symm)]
    · rw [if_neg (by simpa using hp)]
      simp only [dictFind_cons, ih]
      by_cases h3 : p.1 = k2
      · have hk2k : ¬ k2 = k := fun hh => hp (by rw [h3, hh])
        rw [if_pos h3, if_neg hk2k, if_pos h3]
      · rw [if_neg h3, if_neg h3]

theorem dictFind_metaOverlay_notin (overlay : List (String × String)) :
    ∀ (m : List (String × String)) (k : String),
      (∀ kv ∈ overlay, pyCapitalize kv.1 ≠ k) →
      dictFind (metaOverlay m overlay) k = dictFind m k := by
  induction overlay with
  | nil =>
    intro m k _
    rfl
  | cons kv rest ih =>
    intro m k h
    have hkv : pyCapitalize kv.1 ≠ k := h kv (by simp)
    have hrest : ∀ x ∈ rest, pyCapitalize x.1 ≠ k := fun x hx => h x (by simp [hx])
    show dictFind (metaOverlay (dictSet m (pyCapitalize kv.1) kv.2) rest) k = dictFind m k
    rw [ih _ k hrest, dictFind_dictSet, if_neg (fun hh => hkv hh.symm)]

theorem dictFind_metaOverlay_isSome (overlay : List (String × String)) :
    ∀ (m : List (String × String)) (k : String),
      (dictFind m k).isSome = true →
      (dictFind (metaOverlay m overlay) k).isSome = true := by
  induction overlay with
  | nil =>
    intro m k h
    exact h
  | cons kv rest ih =>
    intro m k h
    show (dictFind (metaOverlay (dictSet m (pyCapitalize kv.1) kv.2) rest) k).isSome = true
    apply ih
    rw [dictFind_dictSet]
    by_cases hh : k = pyCapitalize kv.1
    · rw [if_pos hh]
      rfl
    · rw [if_neg hh]
      exact h

theorem dictFind_metaOverlay_mem (overlay : List (String × String)) :
    ∀ (m : List (String × String)) (k0 v0 : String),
      (overlay.map (fun kv => pyCapitalize kv.1)).Nodup →
      (k0, v0) ∈ overlay →
      dictFind (metaOverlay m overlay) (pyCapitalize k0) = some v0 := by
  induction overlay with
  | nil =>
    intro m k0 v0 _ h
    exact absurd h (List.not_mem_nil _)
  | cons kv rest ih =>
    intro m k0 v0 hnd hmem
    rw [List.map_cons, List.nodup_cons] at hnd
    rcases List.mem_cons.mp hmem with heq | hmem2
    · subst heq
      show dictFind (metaOverlay (dictSet m (pyCapitalize k0) v0) rest) (pyCapitalize k0)
          = some v0
      rw [dictFind_metaOverlay_notin rest _ _ ?hnotin, dictFind_dictSet, if_pos rfl]
      case hnotin =>
        intro x hx hh
        apply hnd.1
        rw [← hh]
        exact List.mem_map_of_mem _ hx
    · show dictFind (metaOverlay (dictSet m (pyCapitalize kv.1) kv.2) rest) (pyCapitalize k0)
          = some v0
      exact ih _ k0 v0 hnd.2 hmem2

/-- C4: the resolved metadata gives per-check values precedence over per-URL
values on overlapping (capitalized) keys, retains per-URL values for keys the
per-check layer does not override, and always contains the four required keys
Site, Company, Service, Menu. -/
theorem metadata_precedence (defaults urlMeta perMeta : List (String × String))
    (hurl : (urlMeta.map (fun kv => pyCapitalize kv.1)).Nodup)
    (hper : (perMeta.map (fun kv => pyCapitalize kv.1)).Nodup) :
    (∀ kv ∈ perMeta,
      dictFind (buildMeta defaults urlMeta perMeta) (pyCapitalize kv.1) = some kv.2) ∧
    (∀ kv ∈ urlMeta, (∀ kv2 ∈ perMeta, pyCapitalize kv2.1 ≠ pyCapitalize kv.1) →
      dictFind (buildMeta defaults urlMeta perMeta) (pyCapitalize kv.1) = some kv.2) ∧
    (∀ K ∈ (["Site", "Company", "Service", "Menu"] : List String),
      ∃ v, dictFind (buildMeta defaults urlMeta perMeta) K = some v) := by
  refine ⟨?_, ?_, ?_⟩
  · intro kv hkv
    exact dictFind_metaOverlay_mem perMeta _ kv.1 kv.2 hper hkv
  · intro kv hkv hno
    show dictFind (metaOverlay (metaOverlay _ urlMeta) perMeta) (pyCapitalize kv.1) = some kv.2
    rw [dictFind_metaOverlay_notin perMeta _ _ hno]
    exact dictFind_metaOverlay_mem urlMeta _ kv.1 kv.2 hurl hkv
  · intro K hK
    have hbase : (dictFind [("Site", dictGet defaults "site" ""),
        ("Company", dictGet defaults "company" ""), ("Service", ""), ("Menu", "")]
          K).isSome = true := by
      simp only [List.mem_cons, List.not_mem_nil, or_false] at hK
      rcases hK with rfl | rfl | rfl | rfl <;> rfl
    have hall : (dictFind (buildMeta defaults urlMeta perMeta) K).isSome = true :=
      dictFind_metaOverlay_isSome perMeta _ K
        (dictFind_metaOverlay_isSome urlMeta _ K hbase)
    exact Option.isSome_iff_exists.mp hall

/-- Witness for C4 on a concrete three-layer configuration. -/
theorem metadata_precedence_witness :
    ((([("service", "Svc"), ("menu", "M1")] : List (String × String)).map
        (fun kv => pyCapitalize kv.1)).Nodup ∧
     (([("menu", "M2")] : List (String × String)).map
        (fun kv => pyCapitalize kv.1)).Nodup) ∧
    dictFind (buildMeta [("site", "S")] [("service", "Svc"), ("menu", "M1")]
      [("menu", "M2")]) (pyCapitalize "menu") = some "M2" ∧
    dictFind (buildMeta [("site", "S")] [("service", "Svc"), ("menu", "M1")]
      [("menu", "M2")]) (pyCapitalize "service") = some "Svc" ∧
    (∀ K ∈ (["Site", "Company", "Service", "Menu"] : List String),
      ∃ v, dictFind (buildMeta [("site", "S")] [("service", "Svc"), ("menu", "M1")]
        [("menu", "M2")]) K = some v) := by
  have hurl : (([("service", "Svc"), ("menu", "M1")] : List (String × String)).map
      (fun kv => pyCapitalize kv.1)).Nodup := by decide
  have hper : (([("menu", "M2")] : List (String × String)).map
      (fun kv => pyCapitalize kv.1)).Nodup := by decide
  have h := metadata_precedence [("site", "S")] [("service", "Svc"), ("menu", "M1")]
    [("menu", "M2")] hurl hper
  exact ⟨⟨hurl, hper⟩, h.1 ("menu", "M2") (by simp),
    h.2.1 ("service", "Svc") (by simp) (by decide), h.2.2⟩

end GlobalMonitor
